import Mathlib

/-!
Shallow embedding of the `sdfu` signed-distance-field library.

Scalars (`T` in the Rust source) are modelled as real numbers and vectors
as records of reals; every definition below mirrors the corresponding Rust
item from `src/mathtypes.rs`, `src/primitives.rs`, `src/ops.rs`,
`src/mods.rs`, `src/util.rs` and `src/lib.rs`.  A field (the `SDF` trait)
is modelled as a plain function from a vector type to the scalars.
A Rust `panic!` is modelled by returning `none` in `Option`.
-/

noncomputable section

/-- Two-dimensional vector of scalars (the `Vec2` capability of `mathtypes.rs`). -/
@[ext]
structure Vec2 where
  x : ℝ
  y : ℝ

/-- Three-dimensional vector of scalars (the `Vec3` capability of `mathtypes.rs`). -/
@[ext]
structure Vec3 where
  x : ℝ
  y : ℝ
  z : ℝ

instance : Add Vec2 := ⟨fun a b => ⟨a.x + b.x, a.y + b.y⟩⟩

instance : Sub Vec2 := ⟨fun a b => ⟨a.x - b.x, a.y - b.y⟩⟩

instance : Neg Vec2 := ⟨fun a => ⟨-a.x, -a.y⟩⟩

instance : HMul Vec2 ℝ Vec2 := ⟨fun v s => ⟨v.x * s, v.y * s⟩⟩

instance : HDiv Vec2 ℝ Vec2 := ⟨fun v s => ⟨v.x / s, v.y / s⟩⟩

instance : Zero Vec2 := ⟨⟨0, 0⟩⟩

instance : One Vec2 := ⟨⟨1, 1⟩⟩

instance : Add Vec3 := ⟨fun a b => ⟨a.x + b.x, a.y + b.y, a.z + b.z⟩⟩

instance : Sub Vec3 := ⟨fun a b => ⟨a.x - b.x, a.y - b.y, a.z - b.z⟩⟩

instance : Neg Vec3 := ⟨fun a => ⟨-a.x, -a.y, -a.z⟩⟩

instance : HMul Vec3 ℝ Vec3 := ⟨fun v s => ⟨v.x * s, v.y * s, v.z * s⟩⟩

instance : HDiv Vec3 ℝ Vec3 := ⟨fun v s => ⟨v.x / s, v.y / s, v.z / s⟩⟩

instance : Zero Vec3 := ⟨⟨0, 0, 0⟩⟩

instance : One Vec3 := ⟨⟨1, 1, 1⟩⟩

/-- Scalar clamp (`Clamp` in `mathtypes.rs`): `self.max(low).min(high)`. -/
def Clamp.clamp (self low high : ℝ) : ℝ := Min.min (Max.max self low) high

/-- Scalar linear interpolation (`Lerp` in `mathtypes.rs`):
`self * (1 - factor) + other * factor`. -/
def Lerp.lerp (self other factor : ℝ) : ℝ := self * (1 - factor) + other * factor

/-- Dot product of 2D vectors. -/
def Vec2.dot (a b : Vec2) : ℝ := a.x * b.x + a.y * b.y

/-- Euclidean magnitude of a 2D vector. -/
def Vec2.magnitude (v : Vec2) : ℝ := Real.sqrt (v.dot v)

/-- Component-wise absolute value of a 2D vector. -/
def Vec2.abs (v : Vec2) : Vec2 := ⟨|v.x|, |v.y|⟩

/-- Component-wise maximum of 2D vectors (`MaxMin::max`). -/
def Vec2.max (a b : Vec2) : Vec2 := ⟨Max.max a.x b.x, Max.max a.y b.y⟩

/-- Component-wise minimum of 2D vectors (`MaxMin::min`). -/
def Vec2.min (a b : Vec2) : Vec2 := ⟨Min.min a.x b.x, Min.min a.y b.y⟩

/-- Component-wise clamp of a 2D vector. -/
def Vec2.clamp (v low high : Vec2) : Vec2 := (v.max low).min high

/-- Dot product of 3D vectors. -/
def Vec3.dot (a b : Vec3) : ℝ := a.x * b.x + a.y * b.y + a.z * b.z

/-- Euclidean magnitude of a 3D vector. -/
def Vec3.magnitude (v : Vec3) : ℝ := Real.sqrt (v.dot v)

/-- Component-wise absolute value of a 3D vector. -/
def Vec3.abs (v : Vec3) : Vec3 := ⟨|v.x|, |v.y|, |v.z|⟩

/-- Component-wise maximum of 3D vectors (`MaxMin::max`). -/
def Vec3.max (a b : Vec3) : Vec3 := ⟨Max.max a.x b.x, Max.max a.y b.y, Max.max a.z b.z⟩

/-- Component-wise minimum of 3D vectors (`MaxMin::min`). -/
def Vec3.min (a b : Vec3) : Vec3 := ⟨Min.min a.x b.x, Min.min a.y b.y, Min.min a.z b.z⟩

/-- Component-wise clamp of a 3D vector. -/
def Vec3.clamp (v low high : Vec3) : Vec3 := (v.max low).min high

/-- Normalization of a 3D vector: the vector divided by its magnitude
(undefined for the zero vector in the Rust contract; real division by
zero yields zero here). -/
def Vec3.normalized (v : Vec3) : Vec3 := v / v.magnitude

/-- The axis enum of `primitives.rs`. -/
inductive Axis where
  | X
  | Y
  | Z

/-- The unit basis vector of an axis. -/
def Axis.unit : Axis → Vec3
  | Axis.X => ⟨1, 0, 0⟩
  | Axis.Y => ⟨0, 1, 0⟩
  | Axis.Z => ⟨0, 0, 1⟩

/-- Struct `Cylinder` from `primitives.rs`: an infinite cylinder extending along an axis. -/
structure Cylinder where
  radius : ℝ
  axis : Axis

/-- Embeds `Cylinder::dist` (`primitives.rs` lines 96-103): pick the two coordinates
perpendicular to the axis, take the 2D magnitude, subtract the radius. -/
def Cylinder.dist (s : Cylinder) (p : Vec3) : ℝ :=
  let ab :=
    match s.axis with
    | Axis.X => (p.y, p.z)
    | Axis.Y => (p.x, p.z)
    | Axis.Z => (p.x, p.y)
  (Vec2.mk ab.1 ab.2).magnitude - s.radius

/-- Struct `Capsule` from `primitives.rs`: a capsule extending from `a` to `b`
with radius `radius`. -/
structure Capsule where
  a : Vec3
  b : Vec3
  radius : ℝ

/-- Embeds `Capsule::dist` (`primitives.rs` lines 149-155), transcribed exactly,
including the `t.clamp(T::ZERO, T::ZERO)` on line 153. -/
def Capsule.dist (s : Capsule) (p : Vec3) : ℝ :=
  let pa := p - s.a
  let ba := s.b - s.a
  let t := pa.dot ba / ba.dot ba
  let h := Clamp.clamp t 0 0
  (pa - ba * h).magnitude - s.radius

/-- Capsule distance as the claim (and the spec table) states it: the
projection scalar is clamped to the interval [0, 1]. -/
def Capsule.dist_claim (s : Capsule) (p : Vec3) : ℝ :=
  let pa := p - s.a
  let ba := s.b - s.a
  let t := pa.dot ba / ba.dot ba
  let h := Clamp.clamp t 0 1
  (pa - ba * h).magnitude - s.radius

/-- Embeds `HardMin::min` from `ops.rs`: the plain scalar minimum. -/
def hardMin (a b : ℝ) : ℝ := Min.min a b

/-- Struct `ExponentialSmoothMin` from `ops.rs`. -/
structure ExponentialSmoothMin where
  k : ℝ

/-- Embeds `ExponentialSmoothMin::min` (`ops.rs` lines 70-73), generic over the
scalar `Exp2`/`Log2` capabilities exactly as the Rust impl is. -/
def ExponentialSmoothMin.min (exp2 log2 : ℝ → ℝ) (s : ExponentialSmoothMin) (a b : ℝ) : ℝ :=
  let res := exp2 (-s.k * a) + exp2 (-s.k * b);
  -(log2 res) / s.k

/-- Struct `PolySmoothMin` from `ops.rs`. -/
structure PolySmoothMin where
  k : ℝ

/-- Embeds `PolySmoothMin::min` (`ops.rs` lines 121-125). -/
def PolySmoothMin.min (s : PolySmoothMin) (a b : ℝ) : ℝ :=
  let t := 0.5 + 0.5 * (b - a) / s.k
  let h := Clamp.clamp t 0 1
  Lerp.lerp b a h - s.k * h * (1 - h)

/-- Embeds `Union::dist` (`ops.rs` lines 181-184): `min_func.min(sdf1.dist(p), sdf2.dist(p))`.
A `MinFunction` value is modelled as a binary scalar function. -/
def Union.dist {V : Type} (min_func : ℝ → ℝ → ℝ) (sdf1 sdf2 : V → ℝ) (p : V) : ℝ :=
  min_func (sdf1 p) (sdf2 p)

/-- Embeds `Subtraction::dist` (`ops.rs` lines 210-213): `(-sdf1.dist(p)).max(sdf2.dist(p))`. -/
def Subtraction.dist {V : Type} (sdf1 sdf2 : V → ℝ) (p : V) : ℝ :=
  Max.max (-(sdf1 p)) (sdf2 p)

/-- Embeds `SDF::subtract` (`lib.rs` lines 136-138): `self.subtract(other)` builds
`Subtraction::new(other, self)`, so the cut field is `sdf1` and the base
field is `sdf2` of the resulting `Subtraction`. -/
def SDF.subtract {V : Type} (self other : V → ℝ) : V → ℝ :=
  fun p => Subtraction.dist other self p

/-- Embeds `Translate::dist` (`mods.rs` lines 154-157): `sdf.dist(p - translation)`. -/
def Translate.dist (sdf : Vec3 → ℝ) (translation : Vec3) (p : Vec3) : ℝ :=
  sdf (p - translation)

/-- Embeds `Elongate<_, _, Dim3D>::dist` (`mods.rs` lines 59-68).  No arm of the
axis match panics, so every arm produces `some` elongation vector `h`;
then `q = p - p.clamp(-h, h)` and the inner field is sampled at `q`. -/
def Elongate.dist3 (sdf : Vec3 → ℝ) (axis : Axis) (elongation : ℝ) (p : Vec3) : Option ℝ :=
  (match axis with
    | Axis.X => some (Vec3.mk elongation 0 0)
    | Axis.Y => some (Vec3.mk 0 elongation 0)
    | Axis.Z => some (Vec3.mk 0 0 elongation)).map
    (fun h => sdf (p - p.clamp (-h) h))

/-- Embeds `Elongate<_, _, Dim2D>::dist` (`mods.rs` lines 77-86).  The `Axis::Z`
arm is `panic!("Attempting to use Z axis to elongate 2d SDF")`, modelled
as `none`. -/
def Elongate.dist2 (sdf : Vec2 → ℝ) (axis : Axis) (elongation : ℝ) (p : Vec2) : Option ℝ :=
  (match axis with
    | Axis.X => some (Vec2.mk elongation 0)
    | Axis.Y => some (Vec2.mk 0 elongation)
    | Axis.Z => none).map
    (fun h => sdf (p - p.clamp (-h) h))

/-- Embeds `ElongateMulti<_, _, Dim3D>::dist` (`mods.rs` lines 113-118). -/
def ElongateMulti.dist3 (sdf : Vec3 → ℝ) (elongation : Vec3) (p : Vec3) : ℝ :=
  let q := p.abs - elongation
  let t := Min.min (Max.max (Max.max q.y q.z) q.x) 0
  sdf (q.max 0) + t

/-- Embeds `ElongateMulti<_, _, Dim2D>::dist` (`mods.rs` lines 127-132). -/
def ElongateMulti.dist2 (sdf : Vec2 → ℝ) (elongation : Vec2) (p : Vec2) : ℝ :=
  let q := p.abs - elongation
  let t := Min.min (Max.max q.x q.y) 0
  sdf (q.max 0) + t

/-- Struct `TetrahedralEstimator` from `util.rs`. -/
structure TetrahedralEstimator where
  eps : ℝ

/-- Embeds `TetrahedralEstimator::estimate_normal` (`util.rs` lines 179-190),
transcribed exactly: the second and third samples are taken at
`p + xyy * eps`, reusing the first offset. -/
def TetrahedralEstimator.estimate_normal (e : TetrahedralEstimator)
    (sdf : Vec3 → ℝ) (p : Vec3) : Vec3 :=
  let xyy : Vec3 := ⟨1, -1, -1⟩
  let yyx : Vec3 := ⟨-1, -1, 1⟩
  let yxy : Vec3 := ⟨-1, 1, -1⟩
  let xxx : Vec3 := 1
  (xyy * sdf (p + xyy * e.eps) + yyx * sdf (p + xyy * e.eps) +
      yxy * sdf (p + xyy * e.eps) + xxx * sdf (p + xxx * e.eps)).normalized

/-- The tetrahedral estimator as the claim states it: each of the four
samples is taken at `p + dir * eps` for its own direction `dir`. -/
def TetrahedralEstimator.estimate_normal_claim (e : TetrahedralEstimator)
    (sdf : Vec3 → ℝ) (p : Vec3) : Vec3 :=
  let xyy : Vec3 := ⟨1, -1, -1⟩
  let yyx : Vec3 := ⟨-1, -1, 1⟩
  let yxy : Vec3 := ⟨-1, 1, -1⟩
  let xxx : Vec3 := 1
  (xyy * sdf (p + xyy * e.eps) + yyx * sdf (p + yyx * e.eps) +
      yxy * sdf (p + yxy * e.eps) + xxx * sdf (p + xxx * e.eps)).normalized

/-- The constantly-zero 3D field, a field symmetric about the origin. -/
def constField3 : Vec3 → ℝ := fun _ => 0

/-- The constantly-zero 2D field, a field symmetric about the origin. -/
def constField2 : Vec2 → ℝ := fun _ => 0

theorem Vec2.add2_def (a b : Vec2) : a + b = ⟨a.x + b.x, a.y + b.y⟩ := rfl

theorem Vec2.sub2_def (a b : Vec2) : a - b = ⟨a.x - b.x, a.y - b.y⟩ := rfl

theorem Vec2.neg2_def (a : Vec2) : -a = ⟨-a.x, -a.y⟩ := rfl

theorem Vec2.mul2_def (v : Vec2) (s : ℝ) : v * s = ⟨v.x * s, v.y * s⟩ := rfl

theorem Vec2.div2_def (v : Vec2) (s : ℝ) : v / s = ⟨v.x / s, v.y / s⟩ := rfl

theorem Vec3.add3_def (a b : Vec3) : a + b = ⟨a.x + b.x, a.y + b.y, a.z + b.z⟩ := rfl

theorem Vec3.sub3_def (a b : Vec3) : a - b = ⟨a.x - b.x, a.y - b.y, a.z - b.z⟩ := rfl

theorem Vec3.neg3_def (a : Vec3) : -a = ⟨-a.x, -a.y, -a.z⟩ := rfl

theorem Vec3.mul3_def (v : Vec3) (s : ℝ) : v * s = ⟨v.x * s, v.y * s, v.z * s⟩ := rfl

theorem Vec3.div3_def (v : Vec3) (s : ℝ) : v / s = ⟨v.x / s, v.y / s, v.z / s⟩ := rfl

theorem Vec3.abs3_neg (p : Vec3) : (-p).abs = p.abs := by
  rw [Vec3.neg3_def]
  simp [Vec3.abs]

theorem Vec2.abs2_neg (p : Vec2) : (-p).abs = p.abs := by
  rw [Vec2.neg2_def]
  simp [Vec2.abs]

/-- C4: the union of two fields under the hard minimum strategy is the
pointwise minimum of the two distances. -/
theorem union_hardmin_dist {V : Type} (A B : V → ℝ) (p : V) :
    Union.dist hardMin A B p = Min.min (A p) (B p) :=
  rfl

/-- C3: `base.subtract(cut)` computes `max(-cut.dist(p), base.dist(p))` at
every point, and subtraction is not commutative: concrete fields A, B and
a point where the two orders of subtraction disagree. -/
theorem subtraction_carve_and_noncommutative :
    (∀ (base cut : Vec3 → ℝ) (p : Vec3),
      SDF.subtract base cut p = Max.max (-(cut p)) (base p)) ∧
    (∃ (A B : Vec3 → ℝ) (p : Vec3), SDF.subtract A B p ≠ SDF.subtract B A p) := by
  refine ⟨fun _ _ _ => rfl, fun _ => (1 : ℝ), fun _ => (2 : ℝ), 0, ?_⟩
  show Max.max (-(2 : ℝ)) 1 ≠ Max.max (-(1 : ℝ)) 2
  rw [max_eq_right (by norm_num : (-(2 : ℝ)) ≤ 1),
    max_eq_right (by norm_num : (-(1 : ℝ)) ≤ 2)]
  norm_num

/-- C6: for a 2D field, elongation along Z panics (returns `none`) at every
input, elongation along X or Y returns normally, and for a 3D field every
axis returns normally. -/
theorem elongate_axis_dimension_contract :
    (∀ (sdf : Vec2 → ℝ) (e : ℝ) (p : Vec2), Elongate.dist2 sdf Axis.Z e p = none) ∧
    (∀ (sdf : Vec2 → ℝ) (e : ℝ) (p : Vec2),
      (Elongate.dist2 sdf Axis.X e p).isSome ∧ (Elongate.dist2 sdf Axis.Y e p).isSome) ∧
    (∀ (sdf : Vec3 → ℝ) (axis : Axis) (e : ℝ) (p : Vec3),
      (Elongate.dist3 sdf axis e p).isSome) := by
  refine ⟨fun _ _ _ => rfl, fun _ _ _ => ⟨rfl, rfl⟩, fun sdf axis e p => ?_⟩
  cases axis <;> rfl

/-- C7: translating a field moves the sample point by the opposite offset,
and the round trip holds: sampling the translated field at `p + t` gives
the original field at `p`. -/
theorem translate_dist_round_trip (f : Vec3 → ℝ) (t p : Vec3) :
    Translate.dist f t p = f (p - t) ∧ Translate.dist f t (p + t) = f p := by
  refine ⟨rfl, ?_⟩
  show f (p + t - t) = f p
  have hpt : p + t - t = p := by
    rw [Vec3.add3_def, Vec3.sub3_def]
    ext <;> simp
  rw [hpt]

/-- C8: the exponential smooth minimum equals
`-log2(2^(-k*a) + 2^(-k*b)) / k`, stated over the abstract `exp2`/`log2`
scalar capabilities. -/
theorem exponentialSmoothMin_formula (exp2 log2 : ℝ → ℝ) (k a b : ℝ) :
    ExponentialSmoothMin.min exp2 log2 ⟨k⟩ a b =
      -(log2 (exp2 (-(k * a)) + exp2 (-(k * b)))) / k := by
  simp [ExponentialSmoothMin.min, neg_mul]

/-- C10: the infinite cylinder's distance is invariant under translating
the query point along the cylinder's own axis. -/
theorem cylinder_dist_axis_invariant (r s : ℝ) (axis : Axis) (p : Vec3) :
    Cylinder.dist ⟨r, axis⟩ (p + Axis.unit axis * s) = Cylinder.dist ⟨r, axis⟩ p := by
  cases axis <;>
    simp [Cylinder.dist, Axis.unit, Vec3.mul3_def, Vec3.add3_def]

/-- C5: the polynomial smooth minimum is the stated lerp formula and, for
every smoothing parameter `k > 0`, it never exceeds the larger operand. -/
theorem polySmoothMin_min_le_max (k a b : ℝ) (hk : 0 < k) :
    PolySmoothMin.min ⟨k⟩ a b =
      Lerp.lerp b a (Clamp.clamp (0.5 + 0.5 * (b - a) / k) 0 1) -
        k * Clamp.clamp (0.5 + 0.5 * (b - a) / k) 0 1 *
          (1 - Clamp.clamp (0.5 + 0.5 * (b - a) / k) 0 1) ∧
    PolySmoothMin.min ⟨k⟩ a b ≤ Max.max a b := by
  refine ⟨rfl, ?_⟩
  show Lerp.lerp b a (Clamp.clamp (0.5 + 0.5 * (b - a) / k) 0 1) -
      k * Clamp.clamp (0.5 + 0.5 * (b - a) / k) 0 1 *
        (1 - Clamp.clamp (0.5 + 0.5 * (b - a) / k) 0 1) ≤ Max.max a b
  set h := Clamp.clamp (0.5 + 0.5 * (b - a) / k) 0 1 with hh
  have h0 : 0 ≤ h := le_min (le_max_right _ _) zero_le_one
  have h1 : h ≤ 1 := min_le_right _ _
  have ha : a ≤ Max.max a b := le_max_left a b
  have hb : b ≤ Max.max a b := le_max_right a b
  rw [Lerp.lerp]
  nlinarith [mul_nonneg (sub_nonneg.2 hb) (sub_nonneg.2 h1),
    mul_nonneg (sub_nonneg.2 ha) h0,
    mul_nonneg (mul_nonneg hk.le h0) (sub_nonneg.2 h1)]

/-- Witness for C5 at `k = 1`, `a = 0`, `b = 0`. -/
theorem polySmoothMin_min_le_max_witness :
    (0 : ℝ) < 1 ∧ PolySmoothMin.min ⟨1⟩ 0 0 ≤ Max.max 0 0 :=
  ⟨zero_lt_one, (polySmoothMin_min_le_max 1 0 0 zero_lt_one).2⟩

/-- C9: multi-axis elongation of a field symmetric about the origin is
itself symmetric about the origin, in 3D and in 2D. -/
theorem elongateMulti_dist_symmetric (f3 : Vec3 → ℝ) (e3 : Vec3)
    (f2 : Vec2 → ℝ) (e2 : Vec2)
    (_h3 : ∀ q, f3 q = f3 (-q)) (_h2 : ∀ q, f2 q = f2 (-q)) :
    (∀ p, ElongateMulti.dist3 f3 e3 p = ElongateMulti.dist3 f3 e3 (-p)) ∧
    (∀ p, ElongateMulti.dist2 f2 e2 p = ElongateMulti.dist2 f2 e2 (-p)) := by
  refine ⟨fun p => ?_, fun p => ?_⟩
  · unfold ElongateMulti.dist3
    rw [Vec3.abs3_neg]
  · unfold ElongateMulti.dist2
    rw [Vec2.abs2_neg]

theorem Vec3.one_def : (1 : Vec3) = ⟨1, 1, 1⟩ := rfl

theorem Vec3.one_x : (1 : Vec3).x = 1 := rfl

theorem Vec3.one_y : (1 : Vec3).y = 1 := rfl

theorem Vec3.one_z : (1 : Vec3).z = 1 := rfl

theorem Real.sqrt_four : Real.sqrt 4 = 2 := by
  rw [show (4 : ℝ) = 2 ^ 2 by norm_num, Real.sqrt_sq (by norm_num : (0 : ℝ) ≤ 2)]

theorem Real.sqrt_sixteen : Real.sqrt 16 = 4 := by
  rw [show (16 : ℝ) = 4 ^ 2 by norm_num, Real.sqrt_sq (by norm_num : (0 : ℝ) ≤ 4)]

/-- C1: at `a = (0,0,0)`, `b = (2,0,0)`, `radius = 1`, `p = (2,0,0)` the
source clamps the projection scalar to `[0, 0]` and returns `1`, while
the claimed `[0, 1]`-clamped segment-distance formula gives `-1`. -/
theorem capsule_dist_clamp_bug :
    Capsule.dist ⟨⟨0, 0, 0⟩, ⟨2, 0, 0⟩, 1⟩ ⟨2, 0, 0⟩ = 1 ∧
    Capsule.dist_claim ⟨⟨0, 0, 0⟩, ⟨2, 0, 0⟩, 1⟩ ⟨2, 0, 0⟩ = -1 := by
  constructor
  · unfold Capsule.dist
    norm_num [Vec3.sub3_def, Vec3.mul3_def, Vec3.dot, Vec3.magnitude, Clamp.clamp,
      Real.sqrt_four]
  · unfold Capsule.dist_claim
    norm_num [Vec3.sub3_def, Vec3.mul3_def, Vec3.dot, Vec3.magnitude, Clamp.clamp,
      Real.sqrt_zero]

/-- C2: on the field `v ↦ v.x` at `p = (0,0,0)` with `eps = 1`, the source
(which reuses the `xyy` offset for the `yyx` and `yxy` samples) produces
the zero vector (NaN after normalizing in Rust floating point), while the
claimed per-direction sampling produces the correct normal `(1,0,0)`. -/
theorem tetrahedral_estimate_normal_offset_bug :
    TetrahedralEstimator.estimate_normal ⟨1⟩ (fun v => v.x) ⟨0, 0, 0⟩ = ⟨0, 0, 0⟩ ∧
    TetrahedralEstimator.estimate_normal_claim ⟨1⟩ (fun v => v.x) ⟨0, 0, 0⟩ = ⟨1, 0, 0⟩ ∧
    TetrahedralEstimator.estimate_normal ⟨1⟩ (fun v => v.x) ⟨0, 0, 0⟩ ≠
      TetrahedralEstimator.estimate_normal_claim ⟨1⟩ (fun v => v.x) ⟨0, 0, 0⟩ := by
  have hcode : TetrahedralEstimator.estimate_normal ⟨1⟩ (fun v => v.x) ⟨0, 0, 0⟩
      = ⟨0, 0, 0⟩ := by
    unfold TetrahedralEstimator.estimate_normal
    norm_num [Vec3.one_x, Vec3.one_y, Vec3.one_z, Vec3.mul3_def, Vec3.add3_def, Vec3.normalized,
      Vec3.div3_def, Vec3.magnitude, Vec3.dot, Real.sqrt_zero]
  have hclaim : TetrahedralEstimator.estimate_normal_claim ⟨1⟩ (fun v => v.x) ⟨0, 0, 0⟩
      = ⟨1, 0, 0⟩ := by
    unfold TetrahedralEstimator.estimate_normal_claim
    norm_num [Vec3.one_x, Vec3.one_y, Vec3.one_z, Vec3.mul3_def, Vec3.add3_def, Vec3.normalized,
      Vec3.div3_def, Vec3.magnitude, Vec3.dot, Real.sqrt_sixteen]
  refine ⟨hcode, hclaim, ?_⟩
  rw [hcode, hclaim]
  intro hcontra
  have := congrArg Vec3.x hcontra
  norm_num at this

/-- Witness for C9 on the constantly-zero fields. -/
theorem elongateMulti_dist_symmetric_witness :
    (∀ q : Vec3, constField3 q = constField3 (-q)) ∧
    (∀ q : Vec2, constField2 q = constField2 (-q)) ∧
    ElongateMulti.dist3 constField3 ⟨1, 2, 3⟩ ⟨4, 5, 6⟩ =
      ElongateMulti.dist3 constField3 ⟨1, 2, 3⟩ (-⟨4, 5, 6⟩) :=
  ⟨fun _ => rfl, fun _ => rfl,
    (elongateMulti_dist_symmetric constField3 ⟨1, 2, 3⟩ constField2 ⟨1, 2⟩
      (fun _ => rfl) (fun _ => rfl)).1 ⟨4, 5, 6⟩⟩
